import Mathlib

/-!
# The getaddrinfo interposer (perf/dns/getaddrinfo-interposer.c)

A shallow embedding of the interposer library and the properties of its
load-time initialiser `setup`, of `str_starts_with` and of the interposed
`getaddrinfo`.

Conventions of the embedding.

* A byte is a `Nat`.  A `char *` is an `Option (List Nat)`: `none` is the null
  pointer, `some bs` points at the first byte of `bs`, and `bs` runs to the end
  of the object pointed into, so reading at `some []` is a read outside the
  object.  The C string with content `s` is the buffer `cstr s = s ++ [0]`.
* Memory holds three kinds of objects, each kind addressed by a `Nat`
  (address `0` is the null pointer): pointer slots (`struct addrinfo *`),
  `struct addrinfo` records, and raw byte objects (socket addresses, names).
* The real lookup function is a parameter: a function from its four arguments
  and the memory before the call to a status code and the memory after it.
  Every call made through the handle is appended to a log kept beside the
  memory, so that "which calls were made, and with what" can be stated.
* A run either returns a status code or stops at a fault (null dereference,
  access outside an object, failed assertion).
-/

namespace Interposer

/-! ## Data model -/

/-- Ways in which a run can stop without returning. -/
inductive Fault where
  | nullDeref
  | invalidPointer
  | outOfBounds
  | assertFailed
  deriving DecidableEq, Repr

deriving instance DecidableEq for Except

/-- The C string with content `s`: the bytes of `s` followed by the NUL. -/
def cstr (s : List Nat) : List Nat := s ++ [0]

/-- The fields of `struct addrinfo` (also the type of the hints argument);
pointers are addresses, `0` is null. -/
structure AddrInfo where
  ai_flags : Int
  ai_family : Int
  ai_socktype : Int
  ai_protocol : Int
  ai_addrlen : Nat
  ai_addr : Nat
  ai_canonname : Nat
  ai_next : Nat
  deriving DecidableEq, Repr

/-- An `in_addr_t` object, given by the four bytes it occupies in memory, in
address order. -/
structure InAddr where
  b0 : Nat
  b1 : Nat
  b2 : Nat
  b3 : Nat
  deriving DecidableEq, Repr

/-- The four bytes of an `in_addr_t`, in address order. -/
def InAddr.toBytes (a : InAddr) : List Nat := [a.b0, a.b1, a.b2, a.b3]

/-- Memory: the pointer slots, the `struct addrinfo` records and the raw byte
objects that are live, by address. -/
structure Mem where
  slots : Nat → Option Nat
  infos : Nat → Option AddrInfo
  bytes : Nat → Option (List Nat)

/-- The four arguments of one call of the lookup function. -/
structure Call where
  node : Option (List Nat)
  service : Option (List Nat)
  hints : Option AddrInfo
  res : Nat
  deriving DecidableEq, Repr

/-- The type of the real lookup function: status code and memory after the
call. -/
abbrev LibcFn := Call → Mem → Int × Mem

/-- Memory together with the log of the calls made through the handle. -/
structure World where
  mem : Mem
  calls : List Call

/-- The two statics of the library: `libc_getaddrinfo` and
`proxy_ipv4_addr`. -/
structure State where
  libc_getaddrinfo : Option LibcFn
  proxy_ipv4_addr : InAddr

/-- The statics before `setup` has run: zero-initialised. -/
def State.initial : State := ⟨none, ⟨0, 0, 0, 0⟩⟩

/-- How a run of the interposed function ends. -/
inductive Result where
  | returned (rc : Int) (w : World)
  | fault (k : Fault) (w : World)

/-! ## Constants -/

/-- The literal "perf-test-hydra-". -/
def PERF_TEST_HYDRA : List Nat :=
  ['p', 'e', 'r', 'f', '-', 't', 'e', 's', 't', '-', 'h', 'y', 'd', 'r', 'a', '-'].map Char.toNat

/-- The literal "127.0.0.1". -/
def LOOPBACK : List Nat :=
  ['1', '2', '7', '.', '0', '.', '0', '.', '1'].map Char.toNat

/-- The literal "PROXY_IP". -/
def PROXY_IP : List Nat :=
  ['P', 'R', 'O', 'X', 'Y', '_', 'I', 'P'].map Char.toNat

/-- The literal "getaddrinfo". -/
def GETADDRINFO : List Nat :=
  ['g', 'e', 't', 'a', 'd', 'd', 'r', 'i', 'n', 'f', 'o'].map Char.toNat

/-- The value of `EXIT_FAILURE` (stdlib.h). -/
def EXIT_FAILURE : Int := 1

/-- The offset of `sin_addr` within `struct sockaddr_in` (netinet/in.h): it
follows the two-byte family and the two-byte port. -/
def SIN_ADDR_OFFSET : Nat := 4

/-- The value of `AF_INET` (sys/socket.h). -/
def AF_INET : Int := 2

/-- The value of `AF_INET6` (sys/socket.h). -/
def AF_INET6 : Int := 10

/-- The offset of `sin6_addr` within `struct sockaddr_in6` (netinet/in.h): it
follows the two-byte family, the two-byte port and the four-byte flow
information. -/
def SIN6_ADDR_OFFSET : Nat := 8

/-! ## str_starts_with -/

/-- The loop of `str_starts_with`.  The second argument is the buffer `pfx`
points into; each round reads `*pfx`, stops with 1 at the NUL, and otherwise
reads `*string`, stops with 0 on a difference and advances both pointers. -/
def str_starts_with : Option (List Nat) → List Nat → Except Fault Int
  | _, [] => .error .outOfBounds
  | none, c :: _ => if c = 0 then .ok 1 else .error .nullDeref
  | some [], c :: _ => if c = 0 then .ok 1 else .error .outOfBounds
  | some (d :: string), c :: pfx =>
    if c = 0 then .ok 1
    else if c ≠ d then .ok 0
    else str_starts_with (some string) pfx

/-! ## The interposed getaddrinfo -/

/-- A call through the handle: the real function runs on the memory, and the
call is appended to the log. -/
def call_libc (libc : LibcFn) (c : Call) (w : World) : Int × World :=
  ((libc c w.mem).1, ⟨(libc c w.mem).2, w.calls ++ [c]⟩)

/-- The bytes of `obj` with `src` copied to offset `off`; `none` when the copy
would leave the object. -/
def write_bytes (obj : List Nat) (off : Nat) (src : List Nat) : Option (List Nat) :=
  if off + src.length ≤ obj.length then
    some (obj.take off ++ src ++ obj.drop (off + src.length))
  else none

/-- The `memcpy` of `getaddrinfo`: the destination is
`&((struct sockaddr_in *)res[0]->ai_addr)->sin_addr`, the source is
`proxy_ipv4_addr` and the length is its size.  Reads the slot `res`, then the
`ai_addr` field of the record it points to, then writes into the byte object
at that address at the offset of `sin_addr`. -/
def memcpy_sin_addr (m : Mem) (res : Nat) (proxy_ipv4_addr : InAddr) : Except Fault Mem :=
  match m.slots res with
  | none => .error (if res = 0 then .nullDeref else .invalidPointer)
  | some p =>
    match m.infos p with
    | none => .error (if p = 0 then .nullDeref else .invalidPointer)
    | some ai =>
      match m.bytes ai.ai_addr with
      | none => .error (if ai.ai_addr = 0 then .nullDeref else .invalidPointer)
      | some obj =>
        match write_bytes obj SIN_ADDR_OFFSET proxy_ipv4_addr.toBytes with
        | none => .error .outOfBounds
        | some obj1 =>
          .ok { m with bytes := fun a => if a = ai.ai_addr then some obj1 else m.bytes a }

/-- The interposed `getaddrinfo`, run with the statics `st` in the world
`w`. -/
def getaddrinfo (st : State) (node service : Option (List Nat)) (hints : Option AddrInfo)
    (res : Nat) (w : World) : Result :=
  match st.libc_getaddrinfo with
  | none => .fault .assertFailed w
  | some libc =>
    match str_starts_with node (cstr PERF_TEST_HYDRA) with
    | .error k => .fault k w
    | .ok t =>
      if t ≠ 0 then
        let r := call_libc libc ⟨some (cstr LOOPBACK), service, hints, res⟩ w
        if r.1 = 0 then
          match memcpy_sin_addr r.2.mem res st.proxy_ipv4_addr with
          | .error k => .fault k r.2
          | .ok m => .returned r.1 { r.2 with mem := m }
        else .returned r.1 r.2
      else
        let r := call_libc libc ⟨node, service, hints, res⟩ w
        .returned r.1 r.2

/-! ## The load-time initialiser -/

/-- What `setup` takes from outside the library: the environment (`getenv`),
the dynamic loader (`dlsym` with `RTLD_NEXT`), the address parser
(`inet_addr`) and the text `strerror (errno)` gives at the time of the
call. -/
structure Platform where
  getenv : List Nat → Option (List Nat)
  dlsym_next : List Nat → Option LibcFn
  inet_addr : List Nat → InAddr
  strerror_errno : List Nat

/-- How `setup` ends: the process exits with a status, having written a
diagnostic to the standard error stream, or `setup` returns, leaving the
statics. -/
inductive SetupOutcome where
  | exited (status : Int) (stderr : List Nat)
  | completed (st : State)

/-- The format "error: dlsym(getaddrinfo) failed: %s\n" applied to `msg`. -/
def dlsym_failed_message (msg : List Nat) : List Nat :=
  ("error: dlsym(getaddrinfo) failed: ").toList.map Char.toNat ++ msg ++ [10]

/-- The constructor `setup`, run on the statics `st` (for the process this is
`State.initial`). -/
def setup (env : Platform) (st : State) : SetupOutcome :=
  let proxy_ipaddr := env.getenv (cstr PROXY_IP)
  match env.dlsym_next (cstr GETADDRINFO) with
  | none => .exited EXIT_FAILURE (dlsym_failed_message env.strerror_errno)
  | some f =>
    let st1 : State := { st with libc_getaddrinfo := some f }
    match proxy_ipaddr with
    | some s => .completed { st1 with proxy_ipv4_addr := env.inet_addr s }
    | none => .completed st1

/-! ## Observations used in the statements -/

/-- The world in which a run ended. -/
def Result.world : Result → World
  | .returned _ w => w
  | .fault _ w => w

/-- The status code a run returned, if it returned. -/
def Result.status : Result → Option Int
  | .returned rc _ => some rc
  | .fault _ _ => none

/-- The address of the socket address of the first record of the list stored
at `res`, when the slot and the record are live. -/
def first_ai_addr (m : Mem) (res : Nat) : Option Nat :=
  match m.slots res with
  | none => none
  | some p =>
    match m.infos p with
    | none => none
    | some ai => some ai.ai_addr

/-- The four bytes at the offset of `sin_addr` in the socket address of the
first record of the list stored at `res`; `none` when the slot, the record or
the socket address is not live, or the socket address is shorter than that. -/
def first_sin_addr (m : Mem) (res : Nat) : Option (List Nat) :=
  match first_ai_addr m res with
  | none => none
  | some a =>
    match m.bytes a with
    | none => none
    | some obj =>
      if SIN_ADDR_OFFSET + 4 ≤ obj.length then
        some ((obj.drop SIN_ADDR_OFFSET).take 4)
      else none

/-- The family (`ai_family`) of the first record of the list stored at `res`,
when the slot and the record are live. -/
def first_record_family (m : Mem) (res : Nat) : Option Int :=
  match m.slots res with
  | none => none
  | some p =>
    match m.infos p with
    | none => none
    | some ai => some ai.ai_family

/-- The address field of the first record of the list stored at `res`, read
according to the family of the record: the four bytes of `sin_addr` for
`AF_INET`, the sixteen bytes of `sin6_addr` for `AF_INET6`; `none` for any
other family, or when the slot, the record or the socket address is not live
or the socket address is too short. -/
def first_record_address (m : Mem) (res : Nat) : Option (List Nat) :=
  match m.slots res with
  | none => none
  | some p =>
    match m.infos p with
    | none => none
    | some ai =>
      match m.bytes ai.ai_addr with
      | none => none
      | some obj =>
        if ai.ai_family = AF_INET then
          if SIN_ADDR_OFFSET + 4 ≤ obj.length then
            some ((obj.drop SIN_ADDR_OFFSET).take 4)
          else none
        else if ai.ai_family = AF_INET6 then
          if SIN6_ADDR_OFFSET + 16 ≤ obj.length then
            some ((obj.drop SIN6_ADDR_OFFSET).take 16)
          else none
        else none

/-! ## Dotted-decimal text and the contract of inet_addr -/

/-- The decimal numeral of `n` without leading zeros, for `n < 1000`. -/
def decimal (n : Nat) : List Nat :=
  if n < 10 then [48 + n]
  else if n < 100 then [48 + n / 10, 48 + n % 10]
  else [48 + n / 100, 48 + n / 10 % 10, 48 + n % 10]

/-- The dotted-decimal text "a.b.c.d". -/
def dotted_decimal (a b c d : Nat) : List Nat :=
  decimal a ++ 46 :: (decimal b ++ 46 :: (decimal c ++ 46 :: decimal d))

/-- What `setup` relies on from `inet_addr`, a function of the C library and
so a parameter here (`Platform.inet_addr`): on the dotted-decimal text of four
numbers below 256 it yields the address in network byte order, that is, the
object whose bytes in memory are those four numbers, in order.  Nothing is
assumed about any other text. -/
def inet_addr_contract (inet_addr : List Nat → InAddr) : Prop :=
  ∀ a b c d : Nat, a < 256 → b < 256 → c < 256 → d < 256 →
    inet_addr (cstr (dotted_decimal a b c d)) = ⟨a, b, c, d⟩

/-! ## A parser meeting the contract, and sample worlds -/

/-- Reads the decimal digits at the head of a buffer, most significant
first. -/
def read_digits (acc : Nat) : List Nat → Nat × List Nat
  | [] => (acc, [])
  | c :: cs =>
    if 48 ≤ c ∧ c ≤ 57 then read_digits (acc * 10 + (c - 48)) cs else (acc, c :: cs)

/-- Reads one part of a dotted address: at least one digit, value at most
255. -/
def read_part (bs : List Nat) : Option (Nat × List Nat) :=
  match bs with
  | [] => none
  | c :: _ =>
    if 48 ≤ c ∧ c ≤ 57 then
      if (read_digits 0 bs).1 ≤ 255 then some (read_digits 0 bs) else none
    else none

/-- The value `INADDR_NONE`, all bits set. -/
def INADDR_NONE : InAddr := ⟨255, 255, 255, 255⟩

/-- A parser of strictly dotted-decimal addresses (four decimal parts, each at
most 255, separated by dots, up to the NUL), yielding `INADDR_NONE` on any
other text.  It stands for `inet_addr` where a concrete parser is needed. -/
def inet_addr_dotted (bs : List Nat) : InAddr :=
  match read_part bs with
  | some (a, 46 :: r1) =>
    match read_part r1 with
    | some (b, 46 :: r2) =>
      match read_part r2 with
      | some (c, 46 :: r3) =>
        match read_part r3 with
        | some (d, 0 :: _) => ⟨a, b, c, d⟩
        | _ => INADDR_NONE
      | _ => INADDR_NONE
    | _ => INADDR_NONE
  | _ => INADDR_NONE

/-- Memory with a single live object, the pointer slot at address 16, holding
null. -/
def sample_mem : Mem :=
  ⟨fun a => if a = 16 then some 0 else none, fun _ => none, fun _ => none⟩

/-- The world of `sample_mem` before any call. -/
def sample_world : World := ⟨sample_mem, []⟩

/-- The memory `m` after a successful lookup that stores at the slot `res` a
one-record list: the record at address 100, its socket address `sa` at
address 200. -/
def store_record (m : Mem) (res : Nat) (family : Int) (sa : List Nat) : Mem :=
  { slots := fun a => if a = res then some 100 else m.slots a
    infos := fun a =>
      if a = 100 then some ⟨0, family, 1, 6, sa.length, 200, 0, 0⟩ else m.infos a
    bytes := fun a => if a = 200 then some sa else m.bytes a }

/-- A `struct sockaddr_in`: family 2, port 80, address 127.0.0.1, padding. -/
def sample_sockaddr_in : List Nat :=
  [2, 0, 0, 80, 127, 0, 0, 1, 0, 0, 0, 0, 0, 0, 0, 0]

/-- A `struct sockaddr_in6`: family 10, port 80, flow information 0, address
::ffff:127.0.0.1, scope 0. -/
def sample_sockaddr_in6 : List Nat :=
  [10, 0, 0, 80, 0, 0, 0, 0,
   0, 0, 0, 0, 0, 0, 0, 0, 0, 0, 255, 255, 127, 0, 0, 1,
   0, 0, 0, 0]

/-- A lookup function that resolves only "127.0.0.1": to one IPv4 record, or,
when the hints ask for family 10 (`AF_INET6`), to one IPv6 record; any other
name fails with -2 (`EAI_NONAME`) and leaves the memory as it was. -/
def sample_libc : LibcFn := fun c m =>
  if c.node = some (cstr LOOPBACK) then
    match c.hints with
    | some h =>
      if h.ai_family = 10 then (0, store_record m c.res 10 sample_sockaddr_in6)
      else (0, store_record m c.res 2 sample_sockaddr_in)
    | none => (0, store_record m c.res 2 sample_sockaddr_in)
  else (-2, m)

/-- A lookup function that always fails with -3 (`EAI_AGAIN`). -/
def failing_libc : LibcFn := fun _ m => (-3, m)

/-- Hints asking for IPv6 results, IPv4 addresses mapped (`AI_V4MAPPED`). -/
def sample_hints_v6 : AddrInfo := ⟨8, 10, 1, 0, 0, 0, 0, 0⟩

/-- The hostname "perf-test-hydra-x". -/
def sample_hydra_name : List Nat := PERF_TEST_HYDRA ++ [120]

/-- The hostname "other-service". -/
def sample_other_name : List Nat :=
  ['o', 't', 'h', 'e', 'r', '-', 's', 'e', 'r', 'v', 'i', 'c', 'e'].map Char.toNat

/-- A platform in which the real function is `sample_libc` and `PROXY_IP` has
the value `v`. -/
def sample_platform (v : Option (List Nat)) : Platform :=
  { getenv := fun n => if n = cstr PROXY_IP then v else none
    dlsym_next := fun n => if n = cstr GETADDRINFO then some sample_libc else none
    inet_addr := inet_addr_dotted
    strerror_errno := [] }

/-- A platform in which no next `getaddrinfo` symbol exists. -/
def unbound_platform (v : Option (List Nat)) : Platform :=
  { getenv := fun n => if n = cstr PROXY_IP then v else none
    dlsym_next := fun _ => none
    inet_addr := inet_addr_dotted
    strerror_errno := [] }

/-! ## Lemmas on str_starts_with -/

theorem str_starts_with_buffers (p : List Nat) :
    ∀ (s js jp : List Nat), 0 ∉ p →
      str_starts_with (some (cstr s ++ js)) (cstr p ++ jp) = .ok (if p <+: s then 1 else 0) := by
  induction p with
  | nil =>
    intro s js jp _
    cases s <;> simp [cstr, str_starts_with]
  | cons c p ih =>
    intro s js jp hp
    have hc : c ≠ 0 := fun h => hp (by simp [h])
    have hp1 : 0 ∉ p := fun h => hp (by simp [h])
    cases s with
    | nil => simp [cstr, str_starts_with, hc]
    | cons d s =>
      have h := ih s js jp hp1
      simp only [cstr, List.append_assoc, List.singleton_append] at h
      by_cases hcd : c = d
      · subst hcd
        simp [cstr, str_starts_with, hc, h, List.cons_prefix_cons]
      · simp [cstr, str_starts_with, hc, hcd, List.cons_prefix_cons]

theorem hydra_no_nul : 0 ∉ PERF_TEST_HYDRA := by decide

theorem str_starts_with_hydra (s js : List Nat) :
    str_starts_with (some (cstr s ++ js)) (cstr PERF_TEST_HYDRA)
      = .ok (if PERF_TEST_HYDRA <+: s then 1 else 0) := by
  have h := str_starts_with_buffers PERF_TEST_HYDRA s js [] hydra_no_nul
  simpa using h

/-! ## Lemmas on the interposed getaddrinfo -/

theorem getaddrinfo_plain (f : LibcFn) (proxy : InAddr) (s js : List Nat)
    (service : Option (List Nat)) (hints : Option AddrInfo) (res : Nat) (w : World)
    (h : ¬ PERF_TEST_HYDRA <+: s) :
    getaddrinfo ⟨some f, proxy⟩ (some (cstr s ++ js)) service hints res w
      = .returned (f ⟨some (cstr s ++ js), service, hints, res⟩ w.mem).1
          ⟨(f ⟨some (cstr s ++ js), service, hints, res⟩ w.mem).2,
            w.calls ++ [⟨some (cstr s ++ js), service, hints, res⟩]⟩ := by
  simp [getaddrinfo, str_starts_with_hydra, h, call_libc]

theorem getaddrinfo_prefixed_failure (f : LibcFn) (proxy : InAddr) (s js : List Nat)
    (service : Option (List Nat)) (hints : Option AddrInfo) (res : Nat) (w : World)
    (h : PERF_TEST_HYDRA <+: s)
    (hrc : (f ⟨some (cstr LOOPBACK), service, hints, res⟩ w.mem).1 ≠ 0) :
    getaddrinfo ⟨some f, proxy⟩ (some (cstr s ++ js)) service hints res w
      = .returned (f ⟨some (cstr LOOPBACK), service, hints, res⟩ w.mem).1
          ⟨(f ⟨some (cstr LOOPBACK), service, hints, res⟩ w.mem).2,
            w.calls ++ [⟨some (cstr LOOPBACK), service, hints, res⟩]⟩ := by
  simp [getaddrinfo, str_starts_with_hydra, h, call_libc, hrc]

theorem getaddrinfo_prefixed_success (f : LibcFn) (proxy : InAddr) (s js : List Nat)
    (service : Option (List Nat)) (hints : Option AddrInfo) (res : Nat) (w : World)
    (h : PERF_TEST_HYDRA <+: s)
    (hrc : (f ⟨some (cstr LOOPBACK), service, hints, res⟩ w.mem).1 = 0) :
    getaddrinfo ⟨some f, proxy⟩ (some (cstr s ++ js)) service hints res w
      = match memcpy_sin_addr (f ⟨some (cstr LOOPBACK), service, hints, res⟩ w.mem).2 res proxy with
        | .error k => .fault k ⟨(f ⟨some (cstr LOOPBACK), service, hints, res⟩ w.mem).2,
            w.calls ++ [⟨some (cstr LOOPBACK), service, hints, res⟩]⟩
        | .ok m => .returned 0 ⟨m, w.calls ++ [⟨some (cstr LOOPBACK), service, hints, res⟩]⟩ := by
  simp only [getaddrinfo, str_starts_with_hydra, h, call_libc, hrc]
  simp

theorem memcpy_sin_addr_ok (m : Mem) (res : Nat) (proxy : InAddr)
    (h : first_sin_addr m res ≠ none) :
    ∃ a obj, first_ai_addr m res = some a ∧ m.bytes a = some obj ∧ 8 ≤ obj.length ∧
      memcpy_sin_addr m res proxy
        = .ok { m with bytes := fun x =>
            if x = a then some (obj.take 4 ++ proxy.toBytes ++ obj.drop 8) else m.bytes x } := by
  unfold first_sin_addr at h
  unfold first_ai_addr at h ⊢
  unfold memcpy_sin_addr
  cases hs : m.slots res with
  | none => simp [hs] at h
  | some p =>
    cases hi : m.infos p with
    | none => simp [hs, hi] at h
    | some ai =>
      cases hb : m.bytes ai.ai_addr with
      | none => simp [hs, hi, hb] at h
      | some obj =>
        by_cases hl : SIN_ADDR_OFFSET + 4 ≤ obj.length
        · have hl2 : 8 ≤ obj.length := by simpa [SIN_ADDR_OFFSET] using hl
          refine ⟨ai.ai_addr, obj, by simp [hi], hb, hl2, ?_⟩
          simp [hi, hb, write_bytes, InAddr.toBytes, SIN_ADDR_OFFSET, hl2]
        · simp [hs, hi, hb, hl] at h

theorem sin_addr_after_write (obj src : List Nat) (ho : 8 ≤ obj.length) (hs : src.length = 4) :
    ((obj.take 4 ++ src ++ obj.drop 8).drop 4).take 4 = src
      ∧ (obj.take 4 ++ src ++ obj.drop 8).length = obj.length := by
  have h4 : (obj.take 4).length = 4 := by simp; omega
  constructor
  · rw [List.append_assoc, List.drop_append_of_le_length (by omega)]
    simp [List.drop_eq_nil_of_le, h4, List.take_append_of_le_length, hs]
  · simp [hs]; omega

theorem bytes_outside_write (obj src : List Nat) (ho : 8 ≤ obj.length) (hs : src.length = 4)
    (i : Nat) (hi : i < 4 ∨ 8 ≤ i) :
    (obj.take 4 ++ src ++ obj.drop 8)[i]? = obj[i]? := by
  have h4 : (obj.take 4).length = 4 := by simp; omega
  rcases hi with hi | hi
  · rw [List.append_assoc, List.getElem?_append_left (by omega)]
    simp [List.getElem?_take, hi]
  · rw [List.getElem?_append_right (by simp; omega)]
    simp [hs]
    congr 1
    omega

theorem prefixed_lookup_writes (f : LibcFn) (proxy : InAddr) (s js : List Nat)
    (service : Option (List Nat)) (hints : Option AddrInfo) (res : Nat) (w : World)
    (h : PERF_TEST_HYDRA <+: s)
    (hrc : (f ⟨some (cstr LOOPBACK), service, hints, res⟩ w.mem).1 = 0)
    (hrec : first_sin_addr (f ⟨some (cstr LOOPBACK), service, hints, res⟩ w.mem).2 res
      ≠ none) :
    ∃ w1, getaddrinfo ⟨some f, proxy⟩ (some (cstr s ++ js)) service hints res w
        = .returned 0 w1
      ∧ first_sin_addr w1.mem res = some [proxy.b0, proxy.b1, proxy.b2, proxy.b3] := by
  obtain ⟨a, obj, ha, hb, hl, hm⟩ :=
    memcpy_sin_addr_ok (f ⟨some (cstr LOOPBACK), service, hints, res⟩ w.mem).2 res proxy hrec
  rw [getaddrinfo_prefixed_success f proxy s js service hints res w h hrc, hm]
  refine ⟨_, rfl, ?_⟩
  have hw := sin_addr_after_write obj proxy.toBytes hl rfl
  have ha1 : first_ai_addr
      { (f ⟨some (cstr LOOPBACK), service, hints, res⟩ w.mem).2 with
        bytes := fun x =>
          if x = a then some (obj.take 4 ++ proxy.toBytes ++ obj.drop 8)
          else (f ⟨some (cstr LOOPBACK), service, hints, res⟩ w.mem).2.bytes x } res
      = some a := ha
  unfold first_sin_addr
  simp only [ha1, if_true, SIN_ADDR_OFFSET, hw.2]
  rw [if_pos (by omega), hw.1]
  rfl

theorem prefixed_lookup_frame (f : LibcFn) (proxy : InAddr) (s js : List Nat)
    (service : Option (List Nat)) (hints : Option AddrInfo) (res : Nat) (w : World)
    (h : PERF_TEST_HYDRA <+: s)
    (hrc : (f ⟨some (cstr LOOPBACK), service, hints, res⟩ w.mem).1 = 0)
    (hrec : first_sin_addr (f ⟨some (cstr LOOPBACK), service, hints, res⟩ w.mem).2 res
      ≠ none) :
    ∃ m a obj obj1,
      getaddrinfo ⟨some f, proxy⟩ (some (cstr s ++ js)) service hints res w
        = .returned 0 ⟨m, w.calls ++ [⟨some (cstr LOOPBACK), service, hints, res⟩]⟩
      ∧ first_ai_addr (f ⟨some (cstr LOOPBACK), service, hints, res⟩ w.mem).2 res = some a
      ∧ (f ⟨some (cstr LOOPBACK), service, hints, res⟩ w.mem).2.bytes a = some obj
      ∧ m.bytes a = some obj1
      ∧ m.slots = (f ⟨some (cstr LOOPBACK), service, hints, res⟩ w.mem).2.slots
      ∧ m.infos = (f ⟨some (cstr LOOPBACK), service, hints, res⟩ w.mem).2.infos
      ∧ (∀ x, x ≠ a →
          m.bytes x = (f ⟨some (cstr LOOPBACK), service, hints, res⟩ w.mem).2.bytes x)
      ∧ obj1.length = obj.length
      ∧ (∀ i, i < SIN_ADDR_OFFSET ∨ SIN_ADDR_OFFSET + 4 ≤ i → obj1[i]? = obj[i]?) := by
  obtain ⟨a, obj, ha, hb, hl, hm⟩ :=
    memcpy_sin_addr_ok (f ⟨some (cstr LOOPBACK), service, hints, res⟩ w.mem).2 res proxy hrec
  rw [getaddrinfo_prefixed_success f proxy s js service hints res w h hrc, hm]
  refine ⟨_, a, obj, obj.take 4 ++ proxy.toBytes ++ obj.drop 8, rfl, ha, hb, by simp, rfl, rfl,
    ?_, (sin_addr_after_write obj proxy.toBytes hl rfl).2, ?_⟩
  · intro x hx
    simp [hx]
  · intro i hi
    exact bytes_outside_write obj proxy.toBytes hl rfl i (by simpa [SIN_ADDR_OFFSET] using hi)

theorem first_record_family_congr (m m1 : Mem) (res : Nat) (hs : m.slots = m1.slots)
    (hi : m.infos = m1.infos) :
    first_record_family m res = first_record_family m1 res := by
  unfold first_record_family
  rw [hs, hi]

theorem first_record_address_inet (m : Mem) (res : Nat)
    (hfam : first_record_family m res = some AF_INET) :
    first_record_address m res = first_sin_addr m res := by
  unfold first_record_family at hfam
  unfold first_record_address first_sin_addr first_ai_addr
  cases hs : m.slots res with
  | none => simp [hs] at hfam
  | some p =>
    cases hi : m.infos p with
    | none => simp [hs, hi] at hfam
    | some ai =>
      have hf : ai.ai_family = AF_INET := by simpa [hs, hi] using hfam
      cases hb : m.bytes ai.ai_addr <;> simp [hi, hb, hf]

theorem str_starts_with_no_assert (node : Option (List Nat)) (p : List Nat) :
    str_starts_with node p ≠ .error .assertFailed := by
  induction p generalizing node with
  | nil => simp [str_starts_with]
  | cons c p ih =>
    cases node with
    | none => unfold str_starts_with; split <;> simp
    | some bs =>
      cases bs with
      | nil => unfold str_starts_with; split <;> simp
      | cons d bs =>
        unfold str_starts_with
        split
        · simp
        · split
          · simp
          · exact ih (some bs)

theorem memcpy_sin_addr_no_assert (m : Mem) (res : Nat) (proxy : InAddr) :
    memcpy_sin_addr m res proxy ≠ .error .assertFailed := by
  unfold memcpy_sin_addr
  split
  · split <;> simp
  · split
    · split <;> simp
    · split
      · split <;> simp
      · split <;> simp

/-! ## The sample parser meets the contract -/

theorem read_part_decimal (n t : Nat) (rest : List Nat) (hn : n < 256)
    (ht : ¬ (48 ≤ t ∧ t ≤ 57)) :
    read_part (decimal n ++ t :: rest) = some (n, t :: rest) := by
  unfold decimal
  by_cases h1 : n < 10
  · have e0 : 48 + n ≤ 57 := by omega
    simp [h1, read_part, read_digits, ht, e0]
    omega
  · by_cases h2 : n < 100
    · have e1 : 48 + n / 10 ≤ 57 := by omega
      have e2 : 48 + n % 10 ≤ 57 := by omega
      simp [h1, h2, read_part, read_digits, ht, e1, e2]
      omega
    · have e1 : 48 + n / 100 ≤ 57 := by omega
      have e2 : 48 + n / 10 % 10 ≤ 57 := by omega
      have e3 : 48 + n % 10 ≤ 57 := by omega
      simp [h1, h2, read_part, read_digits, ht, e1, e2, e3]
      omega

theorem inet_addr_dotted_contract : inet_addr_contract inet_addr_dotted := by
  intro a b c d ha hb hc hd
  have e : cstr (dotted_decimal a b c d)
      = decimal a ++ 46 :: (decimal b ++ 46 :: (decimal c ++ 46 :: (decimal d ++ 0 :: []))) := by
    simp [cstr, dotted_decimal]
  rw [e]
  unfold inet_addr_dotted
  rw [read_part_decimal a 46 _ ha (by omega)]
  simp only
  rw [read_part_decimal b 46 _ hb (by omega)]
  simp only
  rw [read_part_decimal c 46 _ hc (by omega)]
  simp only
  rw [read_part_decimal d 0 _ hd (by omega)]

/-! ## The prefix test -/

/-- C9: for all string contents `s` and `p` (`p` free of NUL), with arbitrary
bytes `js`, `jp` behind the terminating NULs, `str_starts_with` returns 1 when
`p` is a prefix of `s` and 0 otherwise.  It is a total function, and with
nothing behind the NUL of `s` (`js = []`) a read past that NUL would be a
fault, so none happens; the bytes behind the NUL never influence the result.
In particular: 1 for every `s` when `p` is empty, 1 for "perf-test-hydra-"
itself, 0 for the empty hostname and for every proper prefix of
"perf-test-hydra-". -/
theorem str_starts_with_spec :
    (∀ s p js jp : List Nat, 0 ∉ p →
      str_starts_with (some (cstr s ++ js)) (cstr p ++ jp) = .ok (if p <+: s then 1 else 0))
    ∧ (∀ s js : List Nat, str_starts_with (some (cstr s ++ js)) (cstr []) = .ok 1)
    ∧ str_starts_with (some (cstr PERF_TEST_HYDRA)) (cstr PERF_TEST_HYDRA) = .ok 1
    ∧ str_starts_with (some (cstr [])) (cstr PERF_TEST_HYDRA) = .ok 0
    ∧ (∀ s : List Nat, s <+: PERF_TEST_HYDRA → s ≠ PERF_TEST_HYDRA →
        str_starts_with (some (cstr s)) (cstr PERF_TEST_HYDRA) = .ok 0) := by
  refine ⟨fun s p js jp hp => str_starts_with_buffers p s js jp hp, ?_, by decide, by decide, ?_⟩
  · intro s js
    have h := str_starts_with_buffers [] s js [] (by simp)
    simpa using h
  · intro s hs hne
    have h := str_starts_with_hydra s []
    have hnot : ¬ PERF_TEST_HYDRA <+: s := fun hp => hne (hs.eq_of_length_le hp.length_le)
    simpa [hnot] using h

/-- C9, at "perf-test-hydra-x" against "perf-test-hydra-" and at
"perf-test-hydr" (a proper prefix). -/
theorem str_starts_with_spec_witness :
    0 ∉ PERF_TEST_HYDRA
    ∧ str_starts_with (some (cstr sample_hydra_name ++ [])) (cstr PERF_TEST_HYDRA ++ [])
        = .ok (if PERF_TEST_HYDRA <+: sample_hydra_name then 1 else 0)
    ∧ PERF_TEST_HYDRA.take 14 <+: PERF_TEST_HYDRA
    ∧ PERF_TEST_HYDRA.take 14 ≠ PERF_TEST_HYDRA
    ∧ str_starts_with (some (cstr (PERF_TEST_HYDRA.take 14))) (cstr PERF_TEST_HYDRA) = .ok 0 :=
  ⟨by decide,
   str_starts_with_spec.1 sample_hydra_name PERF_TEST_HYDRA [] [] (by decide),
   by decide, by decide,
   str_starts_with_spec.2.2.2.2 (PERF_TEST_HYDRA.take 14) (by decide) (by decide)⟩

/-! ## The interposed getaddrinfo -/

/-- C10: with a bound real function, a null hostname makes the prefix test
stop at a null dereference, and `getaddrinfo` stops there too: in the world it
was called in, so with no call made through the handle and no memory
changed. -/
theorem getaddrinfo_null_node (f : LibcFn) (proxy : InAddr) (service : Option (List Nat))
    (hints : Option AddrInfo) (res : Nat) (w : World) :
    str_starts_with none (cstr PERF_TEST_HYDRA) = .error .nullDeref
    ∧ getaddrinfo ⟨some f, proxy⟩ none service hints res w = .fault .nullDeref w
    ∧ (getaddrinfo ⟨some f, proxy⟩ none service hints res w).world.calls = w.calls := by
  have h : str_starts_with none (cstr PERF_TEST_HYDRA) = .error .nullDeref := by decide
  refine ⟨h, ?_, ?_⟩ <;> simp [getaddrinfo, h, Result.world]

/-- C1: for a hostname whose content `s` does not start with
"perf-test-hydra-", `getaddrinfo` makes exactly one call through the handle,
with the caller's own four arguments, and returns the status and the memory of
that call; the stored proxy address does not occur in the result. -/
theorem getaddrinfo_passthrough (f : LibcFn) (proxy : InAddr) (s js : List Nat)
    (service : Option (List Nat)) (hints : Option AddrInfo) (res : Nat) (w : World)
    (h : ¬ PERF_TEST_HYDRA <+: s) :
    getaddrinfo ⟨some f, proxy⟩ (some (cstr s ++ js)) service hints res w
      = .returned (f ⟨some (cstr s ++ js), service, hints, res⟩ w.mem).1
          ⟨(f ⟨some (cstr s ++ js), service, hints, res⟩ w.mem).2,
            w.calls ++ [⟨some (cstr s ++ js), service, hints, res⟩]⟩ :=
  getaddrinfo_plain f proxy s js service hints res w h

/-- C1, at "other-service" with proxy address 10.0.0.5. -/
theorem getaddrinfo_passthrough_witness :
    ¬ PERF_TEST_HYDRA <+: sample_other_name
    ∧ getaddrinfo ⟨some sample_libc, ⟨10, 0, 0, 5⟩⟩ (some (cstr sample_other_name ++ []))
        none none 16 sample_world
      = .returned (sample_libc ⟨some (cstr sample_other_name ++ []), none, none, 16⟩
            sample_world.mem).1
          ⟨(sample_libc ⟨some (cstr sample_other_name ++ []), none, none, 16⟩
              sample_world.mem).2,
            sample_world.calls ++ [⟨some (cstr sample_other_name ++ []), none, none, 16⟩]⟩ :=
  ⟨by decide,
   getaddrinfo_passthrough sample_libc ⟨10, 0, 0, 5⟩ sample_other_name [] none none 16
     sample_world (by decide)⟩

/-- C5: for a prefixed hostname whose delegated lookup of "127.0.0.1" returns
a non-zero status, `getaddrinfo` returns that status and the memory exactly as
the real function left it. -/
theorem getaddrinfo_failure_no_rewrite (f : LibcFn) (proxy : InAddr) (s js : List Nat)
    (service : Option (List Nat)) (hints : Option AddrInfo) (res : Nat) (w : World)
    (h : PERF_TEST_HYDRA <+: s)
    (hrc : (f ⟨some (cstr LOOPBACK), service, hints, res⟩ w.mem).1 ≠ 0) :
    getaddrinfo ⟨some f, proxy⟩ (some (cstr s ++ js)) service hints res w
      = .returned (f ⟨some (cstr LOOPBACK), service, hints, res⟩ w.mem).1
          ⟨(f ⟨some (cstr LOOPBACK), service, hints, res⟩ w.mem).2,
            w.calls ++ [⟨some (cstr LOOPBACK), service, hints, res⟩]⟩ :=
  getaddrinfo_prefixed_failure f proxy s js service hints res w h hrc

/-- C5, at "perf-test-hydra-x" with a real function that fails with -3. -/
theorem getaddrinfo_failure_no_rewrite_witness :
    PERF_TEST_HYDRA <+: sample_hydra_name
    ∧ (failing_libc ⟨some (cstr LOOPBACK), none, none, 16⟩ sample_world.mem).1 ≠ 0
    ∧ getaddrinfo ⟨some failing_libc, ⟨203, 0, 113, 9⟩⟩ (some (cstr sample_hydra_name ++ []))
        none none 16 sample_world
      = .returned (failing_libc ⟨some (cstr LOOPBACK), none, none, 16⟩ sample_world.mem).1
          ⟨(failing_libc ⟨some (cstr LOOPBACK), none, none, 16⟩ sample_world.mem).2,
            sample_world.calls ++ [⟨some (cstr LOOPBACK), none, none, 16⟩]⟩ :=
  ⟨by decide, by decide,
   getaddrinfo_failure_no_rewrite failing_libc ⟨203, 0, 113, 9⟩ sample_hydra_name [] none none
     16 sample_world (by decide) (by decide)⟩

/-- C2 (as amended): for a prefixed hostname and every service and hints,
`getaddrinfo` makes exactly one call through the handle, with the hostname
"127.0.0.1" and the caller's own service, hints and result location; and if
that call returns 0 and the first record of the list it stored is of family
`AF_INET` (with a socket address large enough to hold a `sin_addr`, as the
real function gives it), `getaddrinfo` returns 0 and the address field of that
record, read according to its family, is the four bytes of the stored proxy
address. -/
theorem getaddrinfo_redirect (f : LibcFn) (proxy : InAddr) (s js : List Nat)
    (service : Option (List Nat)) (hints : Option AddrInfo) (res : Nat) (w : World)
    (h : PERF_TEST_HYDRA <+: s) :
    (getaddrinfo ⟨some f, proxy⟩ (some (cstr s ++ js)) service hints res w).world.calls
        = w.calls ++ [⟨some (cstr LOOPBACK), service, hints, res⟩]
    ∧ ((f ⟨some (cstr LOOPBACK), service, hints, res⟩ w.mem).1 = 0 →
        first_record_family (f ⟨some (cstr LOOPBACK), service, hints, res⟩ w.mem).2 res
          = some AF_INET →
        first_sin_addr (f ⟨some (cstr LOOPBACK), service, hints, res⟩ w.mem).2 res ≠ none →
        ∃ m, getaddrinfo ⟨some f, proxy⟩ (some (cstr s ++ js)) service hints res w
              = .returned 0 ⟨m, w.calls ++ [⟨some (cstr LOOPBACK), service, hints, res⟩]⟩
          ∧ first_record_family m res = some AF_INET
          ∧ first_record_address m res = some [proxy.b0, proxy.b1, proxy.b2, proxy.b3]) := by
  constructor
  · by_cases hrc : (f ⟨some (cstr LOOPBACK), service, hints, res⟩ w.mem).1 = 0
    · rw [getaddrinfo_prefixed_success f proxy s js service hints res w h hrc]
      cases memcpy_sin_addr (f ⟨some (cstr LOOPBACK), service, hints, res⟩ w.mem).2 res proxy <;>
        rfl
    · rw [getaddrinfo_prefixed_failure f proxy s js service hints res w h hrc]
      rfl
  · intro hrc hfam hrec
    obtain ⟨m, a, obj, obj1, hret, _, _, _, hslots, hinfos, _, _, _⟩ :=
      prefixed_lookup_frame f proxy s js service hints res w h hrc hrec
    obtain ⟨w1, hret1, haddr⟩ :=
      prefixed_lookup_writes f proxy s js service hints res w h hrc hrec
    have hw : w1.mem = m := by
      rw [hret] at hret1
      injection hret1 with _ hw1
      rw [← hw1]
    have hfam1 : first_record_family m res = some AF_INET := by
      rw [first_record_family_congr m _ res hslots hinfos]
      exact hfam
    refine ⟨m, hret, hfam1, ?_⟩
    rw [first_record_address_inet m res hfam1, ← hw]
    exact haddr

/-- C2 as amended, at "perf-test-hydra-x" with proxy address 203.0.113.9 and a
lookup that gives an `AF_INET` record. -/
theorem getaddrinfo_redirect_witness :
    PERF_TEST_HYDRA <+: sample_hydra_name
    ∧ (sample_libc ⟨some (cstr LOOPBACK), none, none, 16⟩ sample_world.mem).1 = 0
    ∧ first_record_family (sample_libc ⟨some (cstr LOOPBACK), none, none, 16⟩
        sample_world.mem).2 16 = some AF_INET
    ∧ first_sin_addr (sample_libc ⟨some (cstr LOOPBACK), none, none, 16⟩ sample_world.mem).2 16
        ≠ none
    ∧ ∃ m, getaddrinfo ⟨some sample_libc, ⟨203, 0, 113, 9⟩⟩
              (some (cstr sample_hydra_name ++ [])) none none 16 sample_world
            = .returned 0 ⟨m, sample_world.calls ++ [⟨some (cstr LOOPBACK), none, none, 16⟩]⟩
        ∧ first_record_family m 16 = some AF_INET
        ∧ first_record_address m 16 = some [203, 0, 113, 9] :=
  ⟨by decide, by decide, by decide, by decide,
   (getaddrinfo_redirect sample_libc ⟨203, 0, 113, 9⟩ sample_hydra_name [] none none 16
     sample_world (by decide)).2 (by decide) (by decide) (by decide)⟩

/-- C2 as stated fails: the caller asks for "perf-test-hydra-x" with hints for
family `AF_INET6` and mapped IPv4 addresses, the stored proxy address is
203.0.113.9, and the delegated lookup of "127.0.0.1" returns 0 with a first
record of family `AF_INET6`.  `getaddrinfo` returns 0, and the address field
of the first record is still ::ffff:127.0.0.1, not the proxy address. -/
theorem redirect_fails_for_ipv6_record :
    PERF_TEST_HYDRA <+: sample_hydra_name
    ∧ (sample_libc ⟨some (cstr LOOPBACK), none, some sample_hints_v6, 16⟩ sample_world.mem).1 = 0
    ∧ (getaddrinfo ⟨some sample_libc, ⟨203, 0, 113, 9⟩⟩ (some (cstr sample_hydra_name)) none
        (some sample_hints_v6) 16 sample_world).status = some 0
    ∧ first_record_family (getaddrinfo ⟨some sample_libc, ⟨203, 0, 113, 9⟩⟩
        (some (cstr sample_hydra_name)) none (some sample_hints_v6) 16 sample_world).world.mem 16
        = some AF_INET6
    ∧ first_record_address (getaddrinfo ⟨some sample_libc, ⟨203, 0, 113, 9⟩⟩
        (some (cstr sample_hydra_name)) none (some sample_hints_v6) 16 sample_world).world.mem 16
        = some [0, 0, 0, 0, 0, 0, 0, 0, 0, 0, 255, 255, 127, 0, 0, 1]
    ∧ ¬ ((sample_libc ⟨some (cstr LOOPBACK), none, some sample_hints_v6, 16⟩
            sample_world.mem).1 = 0 →
          first_record_address (getaddrinfo ⟨some sample_libc, ⟨203, 0, 113, 9⟩⟩
            (some (cstr sample_hydra_name)) none (some sample_hints_v6) 16
            sample_world).world.mem 16
            = some (InAddr.toBytes ⟨203, 0, 113, 9⟩)) := by
  decide

/-- C3, evaluated where it fails: the caller asks for "perf-test-hydra-x" with
hints for family `AF_INET6` and mapped IPv4 addresses, the stored proxy
address is 10.0.0.5, and the delegated lookup of "127.0.0.1" returns 0 with a
first record of family `AF_INET6`, which has no IPv4 address field.
`getaddrinfo` returns 0, and the socket address of that record is not as the
real function left it: bytes 4 to 7, the flow information of a
`struct sockaddr_in6`, have gone from 0, 0, 0, 0 to 10, 0, 0, 5. -/
theorem getaddrinfo_frame_broken_ipv6 :
    PERF_TEST_HYDRA <+: sample_hydra_name
    ∧ (sample_libc ⟨some (cstr LOOPBACK), none, some sample_hints_v6, 16⟩ sample_world.mem).1 = 0
    ∧ first_record_family (sample_libc ⟨some (cstr LOOPBACK), none, some sample_hints_v6, 16⟩
        sample_world.mem).2 16 = some AF_INET6
    ∧ first_ai_addr (sample_libc ⟨some (cstr LOOPBACK), none, some sample_hints_v6, 16⟩
        sample_world.mem).2 16 = some 200
    ∧ (sample_libc ⟨some (cstr LOOPBACK), none, some sample_hints_v6, 16⟩
        sample_world.mem).2.bytes 200
        = some [10, 0, 0, 80, 0, 0, 0, 0,
                0, 0, 0, 0, 0, 0, 0, 0, 0, 0, 255, 255, 127, 0, 0, 1,
                0, 0, 0, 0]
    ∧ (getaddrinfo ⟨some sample_libc, ⟨10, 0, 0, 5⟩⟩ (some (cstr sample_hydra_name)) none
        (some sample_hints_v6) 16 sample_world).status = some 0
    ∧ (getaddrinfo ⟨some sample_libc, ⟨10, 0, 0, 5⟩⟩ (some (cstr sample_hydra_name)) none
        (some sample_hints_v6) 16 sample_world).world.mem.bytes 200
        = some [10, 0, 0, 80, 10, 0, 0, 5,
                0, 0, 0, 0, 0, 0, 0, 0, 0, 0, 255, 255, 127, 0, 0, 1,
                0, 0, 0, 0]
    ∧ (getaddrinfo ⟨some sample_libc, ⟨10, 0, 0, 5⟩⟩ (some (cstr sample_hydra_name)) none
        (some sample_hints_v6) 16 sample_world).world.mem.bytes 200
        ≠ (sample_libc ⟨some (cstr LOOPBACK), none, some sample_hints_v6, 16⟩
            sample_world.mem).2.bytes 200 := by
  decide

/-- C4: for a non-null hostname, prefixed or not, `getaddrinfo` returns the
status code of the one call it makes through the handle: the call with the
caller's arguments for a hostname without the prefix, the call with
"127.0.0.1" for a prefixed one, whether that status is zero or not.  (For a
prefixed hostname and status 0 the real function has stored a list whose first
record has a socket address large enough to hold a `sin_addr`.) -/
theorem getaddrinfo_status (f : LibcFn) (proxy : InAddr) (s js : List Nat)
    (service : Option (List Nat)) (hints : Option AddrInfo) (res : Nat) (w : World) :
    (¬ PERF_TEST_HYDRA <+: s →
      ∃ w1, getaddrinfo ⟨some f, proxy⟩ (some (cstr s ++ js)) service hints res w
            = .returned (f ⟨some (cstr s ++ js), service, hints, res⟩ w.mem).1 w1
        ∧ w1.calls = w.calls ++ [⟨some (cstr s ++ js), service, hints, res⟩])
    ∧ (PERF_TEST_HYDRA <+: s →
      ((f ⟨some (cstr LOOPBACK), service, hints, res⟩ w.mem).1 = 0 →
        first_sin_addr (f ⟨some (cstr LOOPBACK), service, hints, res⟩ w.mem).2 res ≠ none) →
      ∃ w1, getaddrinfo ⟨some f, proxy⟩ (some (cstr s ++ js)) service hints res w
            = .returned (f ⟨some (cstr LOOPBACK), service, hints, res⟩ w.mem).1 w1
        ∧ w1.calls = w.calls ++ [⟨some (cstr LOOPBACK), service, hints, res⟩]) := by
  constructor
  · intro h
    exact ⟨_, getaddrinfo_plain f proxy s js service hints res w h, rfl⟩
  · intro h hok
    by_cases hrc : (f ⟨some (cstr LOOPBACK), service, hints, res⟩ w.mem).1 = 0
    · obtain ⟨a, obj, _, _, _, hm⟩ :=
        memcpy_sin_addr_ok (f ⟨some (cstr LOOPBACK), service, hints, res⟩ w.mem).2 res proxy
          (hok hrc)
      rw [getaddrinfo_prefixed_success f proxy s js service hints res w h hrc, hm, hrc]
      exact ⟨_, rfl, rfl⟩
    · exact ⟨_, getaddrinfo_prefixed_failure f proxy s js service hints res w h hrc, rfl⟩

/-- C4, at "other-service" (status -2), at "perf-test-hydra-x" with a real
function that resolves (status 0) and with one that fails (status -3). -/
theorem getaddrinfo_status_witness :
    (¬ PERF_TEST_HYDRA <+: sample_other_name
      ∧ ∃ w1, getaddrinfo ⟨some sample_libc, ⟨10, 0, 0, 5⟩⟩
              (some (cstr sample_other_name ++ [])) none none 16 sample_world
            = .returned (sample_libc ⟨some (cstr sample_other_name ++ []), none, none, 16⟩
                sample_world.mem).1 w1
        ∧ w1.calls
            = sample_world.calls ++ [⟨some (cstr sample_other_name ++ []), none, none, 16⟩])
    ∧ (PERF_TEST_HYDRA <+: sample_hydra_name
      ∧ ((sample_libc ⟨some (cstr LOOPBACK), none, none, 16⟩ sample_world.mem).1 = 0 →
          first_sin_addr (sample_libc ⟨some (cstr LOOPBACK), none, none, 16⟩ sample_world.mem).2
            16 ≠ none)
      ∧ ∃ w1, getaddrinfo ⟨some sample_libc, ⟨10, 0, 0, 5⟩⟩
              (some (cstr sample_hydra_name ++ [])) none none 16 sample_world
            = .returned (sample_libc ⟨some (cstr LOOPBACK), none, none, 16⟩ sample_world.mem).1
                w1
        ∧ w1.calls = sample_world.calls ++ [⟨some (cstr LOOPBACK), none, none, 16⟩])
    ∧ (failing_libc ⟨some (cstr LOOPBACK), none, none, 16⟩ sample_world.mem).1 = -3
    ∧ ∃ w1, getaddrinfo ⟨some failing_libc, ⟨10, 0, 0, 5⟩⟩
              (some (cstr sample_hydra_name ++ [])) none none 16 sample_world
            = .returned (failing_libc ⟨some (cstr LOOPBACK), none, none, 16⟩
                sample_world.mem).1 w1
        ∧ w1.calls = sample_world.calls ++ [⟨some (cstr LOOPBACK), none, none, 16⟩] :=
  ⟨⟨by decide,
    (getaddrinfo_status sample_libc ⟨10, 0, 0, 5⟩ sample_other_name [] none none 16
      sample_world).1 (by decide)⟩,
   ⟨by decide, by decide,
    (getaddrinfo_status sample_libc ⟨10, 0, 0, 5⟩ sample_hydra_name [] none none 16
      sample_world).2 (by decide) (by decide)⟩,
   by decide,
   (getaddrinfo_status failing_libc ⟨10, 0, 0, 5⟩ sample_hydra_name [] none none 16
      sample_world).2 (by decide) (by decide)⟩

/-! ## The load-time initialiser -/

/-- C6: let the real function `f` be bound and the address parser meet its
contract on dotted-decimal text.  With `PROXY_IP` unset, `setup` completes
with the stored proxy address 0.0.0.0; with `PROXY_IP` set to the
dotted-decimal text of `a`, `b`, `c`, `d` (each below 256, written without
leading zeros), `setup` completes with the stored proxy address whose bytes
are `a`, `b`, `c`, `d` in that order.  In both cases these are the four bytes
found in the `sin_addr` of the first record after every prefixed lookup whose
delegated call returns 0 (having stored a first record with a socket address
large enough to hold a `sin_addr`). -/
theorem setup_proxy_address (env : Platform) (f : LibcFn)
    (hsym : env.dlsym_next (cstr GETADDRINFO) = some f)
    (hparse : inet_addr_contract env.inet_addr) :
    (env.getenv (cstr PROXY_IP) = none →
      ∃ st, setup env State.initial = .completed st
        ∧ st.proxy_ipv4_addr = ⟨0, 0, 0, 0⟩
        ∧ ∀ (s js : List Nat) (service : Option (List Nat)) (hints : Option AddrInfo)
            (res : Nat) (w : World), PERF_TEST_HYDRA <+: s →
            (f ⟨some (cstr LOOPBACK), service, hints, res⟩ w.mem).1 = 0 →
            first_sin_addr (f ⟨some (cstr LOOPBACK), service, hints, res⟩ w.mem).2 res ≠ none →
            ∃ w1, getaddrinfo st (some (cstr s ++ js)) service hints res w = .returned 0 w1
              ∧ first_sin_addr w1.mem res = some [0, 0, 0, 0])
    ∧ (∀ a b c d : Nat, a < 256 → b < 256 → c < 256 → d < 256 →
      env.getenv (cstr PROXY_IP) = some (cstr (dotted_decimal a b c d)) →
      ∃ st, setup env State.initial = .completed st
        ∧ st.proxy_ipv4_addr = ⟨a, b, c, d⟩
        ∧ ∀ (s js : List Nat) (service : Option (List Nat)) (hints : Option AddrInfo)
            (res : Nat) (w : World), PERF_TEST_HYDRA <+: s →
            (f ⟨some (cstr LOOPBACK), service, hints, res⟩ w.mem).1 = 0 →
            first_sin_addr (f ⟨some (cstr LOOPBACK), service, hints, res⟩ w.mem).2 res ≠ none →
            ∃ w1, getaddrinfo st (some (cstr s ++ js)) service hints res w = .returned 0 w1
              ∧ first_sin_addr w1.mem res = some [a, b, c, d]) := by
  constructor
  · intro henv
    refine ⟨⟨some f, ⟨0, 0, 0, 0⟩⟩, by simp [setup, hsym, henv, State.initial], rfl, ?_⟩
    intro s js service hints res w h hrc hrec
    exact prefixed_lookup_writes f ⟨0, 0, 0, 0⟩ s js service hints res w h hrc hrec
  · intro a b c d ha hb hc hd henv
    refine ⟨⟨some f, ⟨a, b, c, d⟩⟩,
      by simp [setup, hsym, henv, State.initial, hparse a b c d ha hb hc hd], rfl, ?_⟩
    intro s js service hints res w h hrc hrec
    exact prefixed_lookup_writes f ⟨a, b, c, d⟩ s js service hints res w h hrc hrec

/-- C6, with `PROXY_IP` unset and with `PROXY_IP` set to "203.0.113.9", for
the hostname "perf-test-hydra-x". -/
theorem setup_proxy_address_witness :
    (sample_platform none).dlsym_next (cstr GETADDRINFO) = some sample_libc
    ∧ inet_addr_contract (sample_platform none).inet_addr
    ∧ (sample_platform none).getenv (cstr PROXY_IP) = none
    ∧ (∃ st, setup (sample_platform none) State.initial = .completed st
        ∧ st.proxy_ipv4_addr = ⟨0, 0, 0, 0⟩
        ∧ ∃ w1, getaddrinfo st (some (cstr sample_hydra_name ++ [])) none none 16 sample_world
              = .returned 0 w1
          ∧ first_sin_addr w1.mem 16 = some [0, 0, 0, 0])
    ∧ (sample_platform (some (cstr (dotted_decimal 203 0 113 9)))).getenv (cstr PROXY_IP)
        = some (cstr (dotted_decimal 203 0 113 9))
    ∧ (∃ st, setup (sample_platform (some (cstr (dotted_decimal 203 0 113 9)))) State.initial
          = .completed st
        ∧ st.proxy_ipv4_addr = ⟨203, 0, 113, 9⟩
        ∧ ∃ w1, getaddrinfo st (some (cstr sample_hydra_name ++ [])) none none 16 sample_world
              = .returned 0 w1
          ∧ first_sin_addr w1.mem 16 = some [203, 0, 113, 9]) :=
  ⟨rfl, inet_addr_dotted_contract, by decide,
   (((setup_proxy_address (sample_platform none) sample_libc rfl
        inet_addr_dotted_contract).1 (by decide)).imp
      fun _ hst => ⟨hst.1, hst.2.1,
        hst.2.2 sample_hydra_name [] none none 16 sample_world (by decide) (by decide)
          (by decide)⟩),
   by decide,
   (((setup_proxy_address (sample_platform (some (cstr (dotted_decimal 203 0 113 9))))
        sample_libc rfl inet_addr_dotted_contract).2 203 0 113 9 (by decide)
        (by decide) (by decide) (by decide) (by decide)).imp
      fun _ hst => ⟨hst.1, hst.2.1,
        hst.2.2 sample_hydra_name [] none none 16 sample_world (by decide) (by decide)
          (by decide)⟩)⟩

/-- C7: `setup` ends the process exactly when the lookup of the "getaddrinfo"
symbol gives null, and then with a non-zero status, whatever the environment
holds; in every other case it completes with the handle bound to the function
looked up, and in the statics it leaves no run of `getaddrinfo` stops at the
assertion. -/
theorem setup_fatal_iff (env : Platform) (st : State) :
    ((∃ status msg, setup env st = .exited status msg)
        ↔ env.dlsym_next (cstr GETADDRINFO) = none)
    ∧ (∀ status msg, setup env st = .exited status msg → status ≠ 0)
    ∧ (∀ f, env.dlsym_next (cstr GETADDRINFO) = some f →
        ∃ st1, setup env st = .completed st1 ∧ st1.libc_getaddrinfo = some f
          ∧ ∀ (node service : Option (List Nat)) (hints : Option AddrInfo) (res : Nat)
              (w w1 : World),
              getaddrinfo st1 node service hints res w ≠ .fault .assertFailed w1) := by
  have hbound : ∀ (st1 : State) (f : LibcFn), st1.libc_getaddrinfo = some f →
      ∀ (node service : Option (List Nat)) (hints : Option AddrInfo) (res : Nat)
        (w w1 : World), getaddrinfo st1 node service hints res w ≠ .fault .assertFailed w1 := by
    intro st1 f hf node service hints res w w1
    unfold getaddrinfo
    rw [hf]
    simp only
    cases hp : str_starts_with node (cstr PERF_TEST_HYDRA) with
    | error k =>
      have hk : k ≠ .assertFailed := by
        intro hk
        rw [hk] at hp
        exact str_starts_with_no_assert node (cstr PERF_TEST_HYDRA) hp
      simp [hk]
    | ok t =>
      simp only
      split
      · split
        · split
          · rename_i k hmem
            have hk : k ≠ .assertFailed := by
              intro hk
              rw [hk] at hmem
              exact memcpy_sin_addr_no_assert _ _ _ hmem
            simp [hk]
          · simp
        · simp
      · simp
  refine ⟨?_, ?_, ?_⟩
  · cases hsym : env.dlsym_next (cstr GETADDRINFO) with
    | none => simp [setup, hsym]
    | some f =>
      cases henv : env.getenv (cstr PROXY_IP) <;> simp [setup, hsym, henv]
  · intro status msg hex
    cases hsym : env.dlsym_next (cstr GETADDRINFO) with
    | none =>
      simp [setup, hsym] at hex
      rw [← hex.1]
      decide
    | some f =>
      cases henv : env.getenv (cstr PROXY_IP) <;> simp [setup, hsym, henv] at hex
  · intro f hsym
    cases henv : env.getenv (cstr PROXY_IP) with
    | none =>
      exact ⟨⟨some f, st.proxy_ipv4_addr⟩, by simp [setup, hsym, henv], rfl, hbound _ f rfl⟩
    | some v =>
      exact ⟨⟨some f, env.inet_addr v⟩, by simp [setup, hsym, henv], rfl, hbound _ f rfl⟩

/-- C7, with no next symbol (exit, status 1) and with the symbol bound. -/
theorem setup_fatal_iff_witness :
    (unbound_platform none).dlsym_next (cstr GETADDRINFO) = none
    ∧ (∃ status msg, setup (unbound_platform none) State.initial = .exited status msg)
    ∧ setup (unbound_platform none) State.initial
        = .exited 1 (dlsym_failed_message [])
    ∧ (1 : Int) ≠ 0
    ∧ (sample_platform none).dlsym_next (cstr GETADDRINFO) = some sample_libc
    ∧ ∃ st1, setup (sample_platform none) State.initial = .completed st1
        ∧ st1.libc_getaddrinfo = some sample_libc
        ∧ ∀ (node service : Option (List Nat)) (hints : Option AddrInfo) (res : Nat)
            (w w1 : World),
            getaddrinfo st1 node service hints res w ≠ .fault .assertFailed w1 :=
  ⟨rfl,
   (setup_fatal_iff (unbound_platform none) State.initial).1.2 rfl,
   rfl,
   (setup_fatal_iff (unbound_platform none) State.initial).2.1 1 (dlsym_failed_message []) rfl,
   rfl,
   (setup_fatal_iff (sample_platform none) State.initial).2.2 sample_libc rfl⟩

/-- C8, evaluated where it fails: the caller asks for "perf-test-hydra-x" with
hints for family 10 (`AF_INET6`) and mapped IPv4 addresses; the delegated
lookup of "127.0.0.1" returns 0 with a first record of family 10 whose socket
address is a `struct sockaddr_in6` of 28 bytes.  `getaddrinfo` returns 0 and
has overwritten bytes 4 to 7 of that socket address (its flow information)
with the proxy address 203.0.113.9. -/
theorem getaddrinfo_rewrites_ipv6_record :
    PERF_TEST_HYDRA <+: sample_hydra_name
    ∧ (sample_libc ⟨some (cstr LOOPBACK), none, some sample_hints_v6, 16⟩ sample_world.mem).1 = 0
    ∧ (sample_libc ⟨some (cstr LOOPBACK), none, some sample_hints_v6, 16⟩
        sample_world.mem).2.slots 16 = some 100
    ∧ (sample_libc ⟨some (cstr LOOPBACK), none, some sample_hints_v6, 16⟩
        sample_world.mem).2.infos 100 = some ⟨0, 10, 1, 6, 28, 200, 0, 0⟩
    ∧ (sample_libc ⟨some (cstr LOOPBACK), none, some sample_hints_v6, 16⟩
        sample_world.mem).2.bytes 200
        = some [10, 0, 0, 80, 0, 0, 0, 0,
                0, 0, 0, 0, 0, 0, 0, 0, 0, 0, 255, 255, 127, 0, 0, 1,
                0, 0, 0, 0]
    ∧ (getaddrinfo ⟨some sample_libc, ⟨203, 0, 113, 9⟩⟩ (some (cstr sample_hydra_name)) none
        (some sample_hints_v6) 16 sample_world).status = some 0
    ∧ (getaddrinfo ⟨some sample_libc, ⟨203, 0, 113, 9⟩⟩ (some (cstr sample_hydra_name)) none
        (some sample_hints_v6) 16 sample_world).world.mem.bytes 200
        = some [10, 0, 0, 80, 203, 0, 113, 9,
                0, 0, 0, 0, 0, 0, 0, 0, 0, 0, 255, 255, 127, 0, 0, 1,
                0, 0, 0, 0] := by
  decide

end Interposer
